import Mathlib

/-!
Verification of the control-layer unit of src/xs/src/slic3r/AppController.hpp:
the thread-keyed progress-indicator registry, the controller boilerplate, the
print controller and the top level application controller. Only the header is
part of the sources; method bodies that live in the companion translation unit
(AppController.cpp) are modelled from the specification, each such definition
saying so in its doc comment. Raw pointers and shared pointers are modelled by
Option over an identity token, so that pointer identity is observable.
-/

namespace Slic3r

/-- Thread identity value (an explicit key standing for the calling thread). -/
abbrev ThreadID := Nat

/-- Identity token of an IProgressIndicator object (pointer identity). -/
abbrev IndicatorId := Nat

/-- A shared_ptr to IProgressIndicator: either null or a reference to one
indicator object, compared by identity. The source spelling of the alias is
kept (AppControllerBoilerplate line 35). -/
abbrev ProgresIndicatorPtr := Option IndicatorId

/-- Modelled from the spec: the pimpl type PriMap (header line 31), the
thread-keyed mapping from calling thread to its progress indicator; its
definition lives in AppController.cpp, which is not among the sources. The
spec (section 4.1) describes it as a key-value store with at most one entry
per thread identity. -/
def PriMap := ThreadID → ProgresIndicatorPtr

/-- The empty registry: no thread has an indicator installed. -/
def PriMap.empty : PriMap := fun _ => none

/-- Modelled from the spec: install replaces the current association of the
given thread, leaving every other entry unchanged (section 4.1). -/
def PriMap.install (m : PriMap) (t : ThreadID) (p : ProgresIndicatorPtr) :
    PriMap :=
  fun u => if u = t then p else m u

/-- Modelled from the spec: lookup returns the indicator currently associated
with the thread, or the empty result if none was installed; it never
constructs one (section 4.1). -/
def PriMap.lookup (m : PriMap) (t : ThreadID) : ProgresIndicatorPtr := m t

/-- Common runtime issue types (header lines 51-57). -/
inductive IssueType where
  | INFO
  | WARN
  | WARN_Q
  | ERR
  | FATAL
  deriving DecidableEq

/-- State of an AppControllerBoilerplate object: the pimpl registry
progressind_ (header line 40), the global indicator placeholder
global_progressind_ (header line 150), and the thread identity captured at
construction time, used by is_main_thread (header lines 124-132, spec
section 4.1). -/
structure AppControllerBoilerplate where
  progressind_ : PriMap
  global_progressind_ : ProgresIndicatorPtr
  main_thread_ : ThreadID

/-- A freshly constructed boilerplate on thread t: empty registry, no global
indicator, construction thread recorded. -/
def AppControllerBoilerplate.init (t : ThreadID) : AppControllerBoilerplate :=
  { progressind_ := PriMap.empty
    global_progressind_ := none
    main_thread_ := t }

/-- Modelled from the spec: the installer overload
progress_indicator(ProgresIndicatorPtr) (header line 103) registers the given
indicator for the current calling thread in the registry; its body is in
AppController.cpp, absent from the sources. The calling thread is passed
explicitly. -/
def AppControllerBoilerplate.progress_indicator_install
    (st : AppControllerBoilerplate) (caller : ThreadID)
    (progrind : ProgresIndicatorPtr) : AppControllerBoilerplate :=
  { st with progressind_ := st.progressind_.install caller progrind }

/-- Modelled from the spec: the getter overload progress_indicator()
(header lines 115-122) returns the indicator set up for the calling thread;
per the header doc and spec section 4.3, when none is installed for this
thread and a global indicator is available, the global one is set up for the
current thread and returned, otherwise the empty result is returned. Returns
the answer together with the possibly updated state. -/
def AppControllerBoilerplate.progress_indicator
    (st : AppControllerBoilerplate) (caller : ThreadID) :
    ProgresIndicatorPtr × AppControllerBoilerplate :=
  match st.progressind_.lookup caller with
  | some i => (some i, st)
  | none =>
    match st.global_progressind_ with
    | some g => (some g, st.progress_indicator_install caller (some g))
    | none => (none, st)

/-- Modelled from the spec: is_main_thread (header lines 124-132) is true
exactly when the calling thread is the thread that constructed this object. -/
def AppControllerBoilerplate.is_main_thread
    (st : AppControllerBoilerplate) (caller : ThreadID) : Bool :=
  caller == st.main_thread_

/-- Modelled from the spec: report_issue (header lines 95-97) routes the
classified issue to the attached host and returns the continuation decision;
the host is passed explicitly as a function from issue type, description and
brief text to the decision. -/
def report_issue (host : IssueType → String → String → Bool)
    (issuetype : IssueType) (description brief : String) : Bool :=
  host issuetype description brief

/-- The png export input data record (header lines 169-177), with the member
initializers of the source as its default value below. The double fields are
modelled as rationals; every default is exactly representable. -/
structure PngExportData where
  zippath : String
  width_px : Nat
  height_px : Nat
  width_mm : Rat
  height_mm : Rat
  corr_x : Rat
  corr_y : Rat
  corr_z : Rat
  deriving DecidableEq

/-- The default-constructed PngExportData: zippath is a default constructed
string, the remaining fields take their member initializers
(header lines 170-176). -/
def PngExportData.default : PngExportData :=
  { zippath := ""
    width_px := 1440
    height_px := 2560
    width_mm := 68
    height_mm := 120
    corr_x := 1
    corr_y := 1
    corr_z := 1 }

/-- State of a PrintController object (header lines 156-217): the inherited
boilerplate state, the raw Print pointer print_ (null or the identity of a
Print object) and the previous export data prev_expdata_ used to pre-populate
the export dialog. -/
structure PrintController where
  toBoilerplate : AppControllerBoilerplate
  print_ : Option Nat
  prev_expdata_ : PngExportData

/-- The factory PrintController.create(print) (header lines 195-197): builds
a controller holding the given print; the inherited boilerplate is freshly
constructed on the calling thread and prev_expdata_ is default constructed. -/
def PrintController.create (caller : ThreadID) (print : Option Nat) :
    PrintController :=
  { toBoilerplate := AppControllerBoilerplate.init caller
    print_ := print
    prev_expdata_ := PngExportData.default }

/-- Modelled from the spec: query_png_export_data (header line 180) displays
a dialog whose input fields are pre-populated from prev_expdata_, then stores
the values used back into prev_expdata_; its body is in AppController.cpp,
absent from the sources. The host dialog is a function from the pre-populated
defaults to the values chosen by the user. -/
def PrintController.query_png_export_data
    (dialog : PngExportData → PngExportData) (pc : PrintController) :
    PngExportData × PrintController :=
  let expdata := dialog pc.prev_expdata_
  (expdata, { pc with prev_expdata_ := expdata })

/-- One conceptual stage of the slicing sequence (spec section 4.4): per
object perimeters, infill and support generation, then skirt, brim and wipe
tower for the whole print. The field records the WARN_Q issue (description
and brief) that the stage raises through report_issue, if any; whether a
stage raises one is determined by the external print engine. -/
structure Stage where
  warn_q : Option (String × String)
  deriving DecidableEq

/-- Modelled from the spec: the body of the slicing stage sequence run by
PrintController.slice (header lines 203-208, AppController.cpp absent). The
stages run in order; a stage that raises a WARN_Q issue consults report_issue
and, when the decision is false, stops the remaining sequence (spec sections
4.2 and 8). Returns the list of stages that were executed. -/
def runStages (host : IssueType → String → String → Bool) :
    List Stage → List Stage
  | [] => []
  | s :: rest =>
    match s.warn_q with
    | some db =>
      if report_issue host IssueType.WARN_Q db.1 db.2 then
        s :: runStages host rest
      else [s]
    | none => s :: runStages host rest

/-- Modelled from the spec: slice() runs the whole conceptual stage sequence
of the loaded print scene against the attached host; the executed stages are
returned. -/
def PrintController.slice (host : IssueType → String → String → Bool)
    (stages : List Stage) : List Stage :=
  runStages host stages

/-- State of the top level AppController (header lines 222-270): the
inherited boilerplate, the non-owning model pointer model_ and the owned
print controller printctl (a unique_ptr, null until set_print is called). -/
structure AppController where
  toBoilerplate : AppControllerBoilerplate
  model_ : Option Nat
  printctl : Option PrintController

/-- A freshly constructed AppController on thread t: default constructed
boilerplate, null model pointer, null print controller. -/
def AppController.init (t : ThreadID) : AppController :=
  { toBoilerplate := AppControllerBoilerplate.init t
    model_ := none
    printctl := none }

/-- print_ctl (header line 233): returns the raw pointer held by the owned
unique_ptr, null when no print controller exists. -/
def AppController.print_ctl (a : AppController) : Option PrintController :=
  a.printctl

/-- set_model (header line 241): stores the raw model pointer. -/
def AppController.set_model (a : AppController) (model : Option Nat) :
    AppController :=
  { a with model_ := model }

/-- set_print (header lines 250-253): replaces the owned print controller
with one newly created for the given print, then installs the result of the
progress-indicator lookup for the calling thread into the new controller.
The two statements of the source body are modelled in order: the lookup runs
on this controller (possibly lazily installing its global indicator), and
its result is installed into the new print controller for the same thread. -/
def AppController.set_print (a : AppController) (caller : ThreadID)
    (print : Option Nat) : AppController :=
  let pc := PrintController.create caller print
  let res := a.toBoilerplate.progress_indicator caller
  let pc2 : PrintController :=
    { pc with toBoilerplate :=
        pc.toBoilerplate.progress_indicator_install caller res.1 }
  { a with toBoilerplate := res.2, printctl := some pc2 }

end Slic3r

namespace Slic3r

/-- C7: a default-constructed PngExportData has width_px 1440, height_px 2560,
width_mm 68.0, height_mm 120.0, all three correction factors 1.0, and an empty
zippath. -/
theorem png_export_data_defaults :
    PngExportData.default.width_px = 1440 ∧
    PngExportData.default.height_px = 2560 ∧
    PngExportData.default.width_mm = 68 ∧
    PngExportData.default.height_mm = 120 ∧
    PngExportData.default.corr_x = 1 ∧
    PngExportData.default.corr_y = 1 ∧
    PngExportData.default.corr_z = 1 ∧
    PngExportData.default.zippath = "" :=
  ⟨rfl, rfl, rfl, rfl, rfl, rfl, rfl, rfl⟩

/-- C1: installing X for a thread T and then installing Y for T, followed by
the lookup for T, returns Y; and whenever X and Y are distinct indicators the
lookup never returns X: installation overwrites the previous association. -/
theorem install_overwrites_lookup
    (st : AppControllerBoilerplate) (T : ThreadID) (X Y : IndicatorId) :
    (AppControllerBoilerplate.progress_indicator
      (AppControllerBoilerplate.progress_indicator_install
        (AppControllerBoilerplate.progress_indicator_install st T (some X))
        T (some Y)) T).1 = some Y ∧
    (X ≠ Y →
      (AppControllerBoilerplate.progress_indicator
        (AppControllerBoilerplate.progress_indicator_install
          (AppControllerBoilerplate.progress_indicator_install st T (some X))
          T (some Y)) T).1 ≠ some X) := by
  have hl : (AppControllerBoilerplate.progress_indicator
      (AppControllerBoilerplate.progress_indicator_install
        (AppControllerBoilerplate.progress_indicator_install st T (some X))
        T (some Y)) T).1 = some Y := by
    simp [AppControllerBoilerplate.progress_indicator,
      AppControllerBoilerplate.progress_indicator_install,
      PriMap.install, PriMap.lookup]
  refine ⟨hl, fun hxy => ?_⟩
  rw [hl]
  intro hc
  exact hxy (Option.some_injective _ hc.symm)

/-- Witness for C1 at a concrete registry state. -/
theorem install_overwrites_lookup_witness :
    (AppControllerBoilerplate.progress_indicator
      (AppControllerBoilerplate.progress_indicator_install
        (AppControllerBoilerplate.progress_indicator_install
          (AppControllerBoilerplate.init 0) 0 (some 1)) 0 (some 2)) 0).1
      = some 2 ∧
    (AppControllerBoilerplate.progress_indicator
      (AppControllerBoilerplate.progress_indicator_install
        (AppControllerBoilerplate.progress_indicator_install
          (AppControllerBoilerplate.init 0) 0 (some 1)) 0 (some 2)) 0).1
      ≠ some 1 :=
  ⟨(install_overwrites_lookup (AppControllerBoilerplate.init 0) 0 1 2).1,
   (install_overwrites_lookup (AppControllerBoilerplate.init 0) 0 1 2).2
     (by decide)⟩

/-- C2 counterexample: a boilerplate that holds a global indicator (object 7)
while no indicator was ever installed for thread 1. The lookup from thread 1
returns the global indicator, not the empty result, and installs it for
thread 1 as a side effect — contradicting the claim that the lookup returns
the empty result and never installs implicitly. -/
theorem lookup_lazy_global_counterexample :
    (AppControllerBoilerplate.progress_indicator
      { AppControllerBoilerplate.init 0 with global_progressind_ := some 7 }
      1).1 ≠ none ∧
    ((AppControllerBoilerplate.progress_indicator
      { AppControllerBoilerplate.init 0 with global_progressind_ := some 7 }
      1).2).progressind_.lookup 1 = some 7 := by
  constructor
  · decide
  · rfl

/-- C2 (amended): for a thread T with no indicator installed, the lookup
returns the empty result and leaves the state unchanged when the controller
holds no global indicator; when a global indicator is held, the lookup lazily
installs it for T and returns it. -/
theorem lookup_no_install_empty_or_global
    (st : AppControllerBoilerplate) (T : ThreadID)
    (h : st.progressind_.lookup T = none) :
    (st.global_progressind_ = none →
      (st.progress_indicator T).1 = none ∧ (st.progress_indicator T).2 = st) ∧
    (∀ g, st.global_progressind_ = some g →
      (st.progress_indicator T).1 = some g ∧
      ((st.progress_indicator T).2).progressind_.lookup T = some g) := by
  constructor
  · intro hg
    simp [AppControllerBoilerplate.progress_indicator, h, hg]
  · intro g hg
    have h2 : st.progressind_ T = none := h
    simp [AppControllerBoilerplate.progress_indicator,
      AppControllerBoilerplate.progress_indicator_install,
      PriMap.install, PriMap.lookup, h2, hg]

/-- Witness for the amended C2 at a freshly constructed boilerplate. -/
theorem lookup_no_install_empty_or_global_witness :
    ((AppControllerBoilerplate.init 0).progress_indicator 1).1 = none ∧
    ((AppControllerBoilerplate.init 0).progress_indicator 1).2
      = AppControllerBoilerplate.init 0 :=
  (lookup_no_install_empty_or_global (AppControllerBoilerplate.init 0) 1
    rfl).1 rfl

/-- C3: installing an indicator for a thread T1 leaves the result of the
lookup for any other thread T2 unchanged. -/
theorem install_frame_other_thread
    (st : AppControllerBoilerplate) (T1 T2 : ThreadID)
    (X : ProgresIndicatorPtr) (h : T1 ≠ T2) :
    ((st.progress_indicator_install T1 X).progress_indicator T2).1
      = (st.progress_indicator T2).1 := by
  have hlook : (st.progressind_.install T1 X).lookup T2
      = st.progressind_.lookup T2 := by
    simp [PriMap.install, PriMap.lookup, Ne.symm h]
  unfold AppControllerBoilerplate.progress_indicator
  simp only [AppControllerBoilerplate.progress_indicator_install, hlook]
  cases hv : st.progressind_.lookup T2 with
  | some i => simp
  | none =>
    cases hg : st.global_progressind_ with
    | some g => simp
    | none => simp

/-- Witness for C3 at a concrete registry state. -/
theorem install_frame_other_thread_witness :
    (((AppControllerBoilerplate.init 0).progress_indicator_install
      1 (some 5)).progress_indicator 0).1
      = ((AppControllerBoilerplate.init 0).progress_indicator 0).1 :=
  install_frame_other_thread (AppControllerBoilerplate.init 0) 1 0 (some 5)
    (by decide)

/-- C5: is_main_thread returns true when called from the thread that
constructed the boilerplate instance, and false when called from any other
thread. -/
theorem is_main_thread_iff_construction_thread (t0 caller : ThreadID) :
    (AppControllerBoilerplate.init t0).is_main_thread t0 = true ∧
    (caller ≠ t0 →
      (AppControllerBoilerplate.init t0).is_main_thread caller = false) := by
  constructor
  · simp [AppControllerBoilerplate.is_main_thread,
      AppControllerBoilerplate.init]
  · intro h
    simp [AppControllerBoilerplate.is_main_thread,
      AppControllerBoilerplate.init, h]

/-- Witness for C5 on concrete thread identities. -/
theorem is_main_thread_iff_construction_thread_witness :
    (AppControllerBoilerplate.init 0).is_main_thread 0 = true ∧
    (AppControllerBoilerplate.init 0).is_main_thread 1 = false :=
  ⟨(is_main_thread_iff_construction_thread 0 1).1,
   (is_main_thread_iff_construction_thread 0 1).2 (by decide)⟩

/-- C4: when an indicator x is installed for the calling thread, set_print
replaces the owned print controller with a newly created one holding the
given print, and installs the identical indicator x into the new controller
for the calling thread. -/
theorem set_print_propagates_indicator
    (a : AppController) (T : ThreadID) (p : Nat) (x : IndicatorId)
    (h : a.toBoilerplate.progressind_.lookup T = some x) :
    ∃ pc, (a.set_print T (some p)).printctl = some pc ∧
      pc.print_ = some p ∧
      pc.toBoilerplate.progressind_.lookup T = some x := by
  have h2 : a.toBoilerplate.progressind_ T = some x := h
  refine ⟨_, rfl, rfl, ?_⟩
  simp [AppController.set_print, AppControllerBoilerplate.progress_indicator,
    AppControllerBoilerplate.progress_indicator_install,
    PriMap.install, PriMap.lookup, PrintController.create, h2]

/-- Witness for C4: an AppController with indicator 3 installed for thread 0
propagates that indicator into the controller created by set_print. -/
theorem set_print_propagates_indicator_witness :
    ∃ pc,
      (AppController.set_print { AppController.init 0 with toBoilerplate := (AppControllerBoilerplate.init 0).progress_indicator_install 0 (some 3) } 0 (some 5)).printctl = some pc ∧
      pc.print_ = some 5 ∧
      pc.toBoilerplate.progressind_.lookup 0 = some 3 :=
  set_print_propagates_indicator { AppController.init 0 with toBoilerplate := (AppControllerBoilerplate.init 0).progress_indicator_install 0 (some 3) } 0 5 3 (by decide)

/-- C10: print_ctl on a freshly constructed AppController returns the null
pointer; after set_print it returns a non-null pointer to the controller
created by that call, holding the given print. -/
theorem print_ctl_null_then_set
    (t T : ThreadID) (a : AppController) (p : Nat) :
    (AppController.init t).print_ctl = none ∧
    ∃ pc, (a.set_print T (some p)).print_ctl = some pc ∧
      pc.print_ = some p :=
  ⟨rfl, ⟨_, rfl, rfl⟩⟩

/-- C6: once report_issue for a WARN_Q issue returns false at some stage s,
no stage after s is executed by slice: the executed stage list is a prefix of
the sequence ending at s. -/
theorem slice_stops_after_warn_q_false
    (host : IssueType → String → String → Bool) (s : Stage)
    (d b : String) (hs : s.warn_q = some (d, b))
    (hh : host IssueType.WARN_Q d b = false) :
    ∀ pre post : List Stage,
      PrintController.slice host (pre ++ s :: post) <+: pre ++ [s] := by
  intro pre
  induction pre with
  | nil =>
    intro post
    show runStages host (s :: post) <+: [s]
    simp [runStages, hs, report_issue, hh]
  | cons q pre ih =>
    intro post
    obtain ⟨ts, hts⟩ := ih post
    show runStages host (q :: (pre ++ s :: post)) <+: q :: (pre ++ [s])
    cases hq : q.warn_q with
    | none =>
      refine ⟨ts, ?_⟩
      have hrun : runStages host (q :: (pre ++ s :: post))
          = q :: runStages host (pre ++ s :: post) := by
        simp [runStages, hq]
      rw [hrun, List.cons_append]
      exact congrArg (List.cons q) hts
    | some db =>
      by_cases hd : report_issue host IssueType.WARN_Q db.1 db.2
      · refine ⟨ts, ?_⟩
        have hrun : runStages host (q :: (pre ++ s :: post))
            = q :: runStages host (pre ++ s :: post) := by
          simp [runStages, hq, hd]
        rw [hrun, List.cons_append]
        exact congrArg (List.cons q) hts
      · have hrun : runStages host (q :: (pre ++ s :: post)) = [q] := by
          simp [runStages, hq, hd]
        rw [hrun]
        exact ⟨pre ++ [s], rfl⟩

/-- Witness for C6: with a host that always answers false, a run over a
WARN_Q-raising stage followed by one more stage executes only up to the
WARN_Q stage. -/
theorem slice_stops_after_warn_q_false_witness :
    PrintController.slice (fun _ _ _ => false)
      (Stage.mk (some ("d", "b")) :: Stage.mk none :: [])
      <+: Stage.mk (some ("d", "b")) :: [] :=
  slice_stops_after_warn_q_false (fun _ _ _ => false)
    (Stage.mk (some ("d", "b"))) "d" "b" rfl rfl
    [] (Stage.mk none :: [])

/-- C8: each export query pre-populates the dialog from the stored
prev_expdata_ and stores the values used back into prev_expdata_; in
particular, when the first query chose the zippath /tmp/a.zip, the defaults
offered to a second query carry that same zippath. -/
theorem query_png_export_prepopulates_prev
    (pc : PrintController) (d1 d2 : PngExportData → PngExportData) :
    (PrintController.query_png_export_data d1 pc).1
      = d1 pc.prev_expdata_ ∧
    ((PrintController.query_png_export_data d1 pc).2).prev_expdata_
      = (PrintController.query_png_export_data d1 pc).1 ∧
    (PrintController.query_png_export_data d2
        (PrintController.query_png_export_data d1 pc).2).1
      = d2 (PrintController.query_png_export_data d1 pc).1 ∧
    ((PrintController.query_png_export_data d1 pc).1.zippath = "/tmp/a.zip" →
      ((PrintController.query_png_export_data d1 pc).2).prev_expdata_.zippath
        = "/tmp/a.zip") :=
  ⟨rfl, rfl, rfl, fun hz => hz⟩

/-- Witness for C8: a first query choosing /tmp/a.zip leaves /tmp/a.zip as
the default zippath offered by the second query. -/
theorem query_png_export_prepopulates_prev_witness :
    ((PrintController.query_png_export_data
        (fun e => { e with zippath := "/tmp/a.zip" })
        (PrintController.create 0 none)).2).prev_expdata_.zippath
      = "/tmp/a.zip" :=
  (query_png_export_prepopulates_prev (PrintController.create 0 none)
    (fun e => { e with zippath := "/tmp/a.zip" }) id).2.2.2 rfl

end Slic3r
